import Mathlib

/-!
Verification development for hecrp/LLM-train-monitor.

The repository has two Rust files:
* `src/main.rs` — the dashboard variant (`LLMTrainMonitor` with a tui/crossterm
  full-screen loop).  This is the program that `main` runs.
* `llmtrain_monitor.rs` — an earlier plain-transcript variant of the same
  struct (its `display`/`display_gpu_info` functions are modelled here as the
  transcript renderer).

Modelling conventions:
* Machine floats (`f32` cpu usage) are modelled as `Nat`: the program never
  computes with them, it only passes them through to formatting, so the exact
  numeric type is irrelevant to every claim (the `{:.2}` float formatting is
  abstracted to `toString`).
* Fallible external queries (sysinfo, nvml_wrapper, crossterm) are modelled as
  `Option`-valued inputs: `none` is the library call returning an error.
* One loop iteration of `run` consumes one `TickInput`: the system sample the
  `refresh_all` call produces, whether the `terminal.draw` call succeeds, and
  the outcome of the bounded `crossterm::event::poll`/`read` wait.
-/

/-- Per-device data exposed by the NVML collaborator.  Each query can fail
independently, mirroring the `nvml_wrapper` calls used in the sources:
`utilization_rates().gpu`, `memory_info().{used, total}` (bytes),
`temperature(TemperatureSensor::Gpu)` and `tensor_core_usage()`. -/
structure GpuDevice where
  utilization : Option Nat
  memory : Option (Nat × Nat)
  temperature : Option Nat
  tensorCore : Option Nat
deriving Repr, DecidableEq

/-- The NVML subsystem handle obtained by `Nvml::init()`: `device_count()` and
`device_by_index(i)` can each fail. -/
structure NvmlHandle where
  deviceCount : Option Nat
  deviceByIndex : Nat → Option GpuDevice

/-- A row of the process table as consumed through
`sysinfo::processes_by_exact_name`: name, `cpu_usage()`, `memory()` (bytes). -/
structure ProcEntry where
  name : String
  cpuUsage : Nat
  memory : Nat
deriving Repr, DecidableEq

/-- The host data one `system.refresh_all()` makes current for a tick:
`global_cpu_info().cpu_usage()`, `used_memory()`, `total_memory()` and the
process table in its encounter order. -/
structure SysSample where
  globalCpuUsage : Nat
  usedMemory : Nat
  totalMemory : Nat
  processes : List ProcEntry
deriving Repr, DecidableEq

/-- `main.rs`, `LLMTrainMonitor::get_gpu_info` (lines 62-71): queries only
device index 0 of the handle, and chains every sub-query with `?`/`and_then`,
so the whole result is `none` as soon as the handle is absent, the device
handle fails, or any one of the utilization / memory / temperature queries
fails.  Result tuple: (gpu %, memory used, memory total, temperature). -/
def get_gpu_info (nvml : Option NvmlHandle) : Option (Nat × Nat × Nat × Nat) :=
  nvml.bind fun n =>
    (n.deviceByIndex 0).bind fun device =>
      device.utilization.bind fun u =>
        device.memory.bind fun m =>
          device.temperature.map fun t => (u, m.1, m.2, t)

/-- `main.rs`, `LLMTrainMonitor::get_process_info` (lines 74-78):
`processes_by_exact_name` keeps the rows whose name equals `process_name`
exactly, in the table's encounter order, and `.next()` takes the first such
row; absence of a match is `None`, not an error. -/
def get_process_info (processes : List ProcEntry) (processName : String) :
    Option (Nat × Nat) :=
  (processes.find? (fun p => p.name == processName)).map fun p =>
    (p.cpuUsage, p.memory)

/-- The fields of the `LLMTrainMonitor` struct that outlive one tick
(`system` is re-sampled per tick and is therefore a per-tick input here). -/
structure MonitorState where
  nvml : Option NvmlHandle
  processName : String
  tickInterval : Nat
  logFilePath : Option String
  metricRegex : Option String

/-- A metric pattern as seen through the external regex engine: whether
`Regex::new` accepts it (syntactic validity) and how many capture groups it
has.  The engine itself is an out-of-scope collaborator (spec §6). -/
structure PatternSpec where
  compiles : Bool
  captureGroups : Nat
  text : String
deriving Repr, DecidableEq

/-- The external `Regex::new`: succeeds exactly on syntactically valid
patterns; it does not require any capture group. -/
def regexNew (p : PatternSpec) : Option PatternSpec :=
  if p.compiles then some p else none

/-- `main.rs`, `LLMTrainMonitor::new` (lines 45-54).  `nvmlInit` is the
outcome of `Nvml::init().ok()` (failure is recorded as `none`, non-fatally).
The metric pattern is compiled with `Regex::new(&r).expect(..)`: a pattern the
engine rejects panics at startup, modelled as the outer `none`; any pattern
the engine accepts is stored unchecked. -/
def LLMTrainMonitor.new (nvmlInit : Option NvmlHandle) (processName : String)
    (tickInterval : Nat) (logFilePath : Option String)
    (metricRegex : Option PatternSpec) : Option MonitorState :=
  match metricRegex with
  | none => some ⟨nvmlInit, processName, tickInterval, logFilePath, none⟩
  | some p => (regexNew p).map fun c =>
      ⟨nvmlInit, processName, tickInterval, logFilePath, some c.text⟩

/-- Values `run` (lines 87-107) reads from the environment once, before the
loop: `USER`, `HOSTNAME`, `system.name()`, `system.os_version()`. -/
structure EnvInfo where
  username : String
  hostname : String
  sysName : String
  osVersion : String
deriving Repr, DecidableEq

/-- Everything `run` computes before entering its loop and then treats as
constant: the banner ingredients and the one startup GPU query (line 91). -/
structure StartupState where
  username : String
  hostname : String
  osInfo : String
  gpuInfo : Option (Nat × Nat × Nat × Nat)
  processName : String
  tickInterval : Nat
deriving Repr, DecidableEq

/-- The pre-loop section of `run` (lines 87-95): os label `"{name} {ver}"`,
and `gpu_info = self.get_gpu_info()` computed exactly once. -/
def mkStartup (m : MonitorState) (env : EnvInfo) : StartupState :=
  ⟨env.username, env.hostname, env.sysName ++ " " ++ env.osVersion,
   get_gpu_info m.nvml, m.processName, m.tickInterval⟩

/-- `gpu_summary` (lines 92-95): a banner string built once at startup from
the startup GPU query. -/
def gpu_summary (gpuInfo : Option (Nat × Nat × Nat × Nat)) : String :=
  match gpuInfo with
  | some g => "GPU: " ++ toString (g.2.2.1 / 1024 / 1024) ++ " MB"
  | none => "No GPU detected"

/-- The banner text up to the `gpu_summary` slot (the first three `{}` slots
of the `format!` at lines 97-107: username, hostname, os label). -/
def bannerTop (face : String) (su : StartupState) : String :=
  "\n  " ++ face ++ "                LLM Training Monitor v0.1.0\n  " ++ face ++
    "                 User: " ++ su.username ++ "@" ++ su.hostname ++
    " | OS: " ++ su.osInfo ++ "\n  " ++ face ++ "                 "

/-- `ascii_frame1` (lines 97-101). -/
def ascii_frame1 (su : StartupState) : String :=
  bannerTop "ʕ •ᴥ•ʔ" su ++ (gpu_summary su.gpuInfo ++ "\n        ")

/-- `ascii_frame2` (lines 103-107). -/
def ascii_frame2 (su : StartupState) : String :=
  bannerTop "ʕ -ᴥ-ʔ" su ++ (gpu_summary su.gpuInfo ++ "\n        ")

/-- One `f.render_widget(w, chunks[region])` call: which layout region it
writes, the widget block title, and the widget text lines.  Region indices
follow the `Layout` chunks of line 114-123: 0 banner (height 5), 1 CPU
(height 3), 2 memory (height 3), 3 the bottom `Min(0)` region. -/
structure RenderOp where
  region : Nat
  title : String
  lines : List String
deriving Repr, DecidableEq

/-- The banner render (lines 125-128): frame 1 when `frame_toggle` is true,
frame 2 when it is false, no block title. -/
def bannerOp (su : StartupState) (toggle : Bool) : RenderOp :=
  ⟨0, "", [if toggle then ascii_frame1 su else ascii_frame2 su]⟩

/-- The CPU panel text (line 133), shared verbatim with the transcript
variant's CPU line. -/
def cpuLineStr (s : SysSample) : String :=
  "CPU Usage: " ++ toString s.globalCpuUsage ++ "%"

/-- The CPU panel render (lines 132-135). -/
def cpuOp (s : SysSample) : RenderOp :=
  ⟨1, "CPU Info", [cpuLineStr s]⟩

/-- The memory panel text (lines 137-141), shared verbatim with the
transcript variant's memory line. -/
def memLineStr (s : SysSample) : String :=
  "Memory Usage: " ++ toString (s.usedMemory / 1024 / 1024) ++ " / " ++
    toString (s.totalMemory / 1024 / 1024) ++ " MB"

/-- The memory panel render (lines 137-143). -/
def memOp (s : SysSample) : RenderOp :=
  ⟨2, "System Memory", [memLineStr s]⟩

/-- The "not found" paragraph text of line 153. -/
def notFoundLine (processName : String) : String :=
  "Process \x27" ++ processName ++ "\x27 not found"

/-- The process panel title (line 150 when found, line 154 otherwise). -/
def processTitle (su : StartupState) (s : SysSample) : String :=
  match get_process_info s.processes su.processName with
  | some _ => "Process: " ++ su.processName
  | none => "Process Info"

/-- The process panel lines (lines 146-149 when found, line 153 otherwise). -/
def processLines (su : StartupState) (s : SysSample) : List String :=
  match get_process_info s.processes su.processName with
  | some cm =>
      ["CPU Usage: " ++ toString cm.1 ++ "%",
       "Memory Usage: " ++ toString (cm.2 / 1024 / 1024) ++ " MB"]
  | none => [notFoundLine su.processName]

/-- The process panel render into the bottom region (lines 145-156): one
widget is always rendered there, list or "not found" paragraph. -/
def processOp (su : StartupState) (s : SysSample) : RenderOp :=
  ⟨3, processTitle su s, processLines su s⟩

/-- The GPU list items of lines 159-163 for the startup gpu tuple. -/
def gpuLines (g : Nat × Nat × Nat × Nat) : List String :=
  ["GPU Usage: " ++ toString g.1 ++ "%",
   "Memory: " ++ toString (g.2.1 / 1024 / 1024) ++ " / " ++
     toString (g.2.2.1 / 1024 / 1024) ++ " MB",
   "Temperature: " ++ toString g.2.2.2 ++ "°C"]

/-- The conditional GPU render into the bottom region (lines 158-166): drawn
after the process widget, into the same `chunks[3]`, only when the startup
`gpu_info` was `Some`. -/
def gpuOps (su : StartupState) : List RenderOp :=
  match su.gpuInfo with
  | some g => [⟨3, "GPU Info", gpuLines g⟩]
  | none => []

/-- The draw closure of `terminal.draw` (lines 113-167) as the ordered list
of widget renders it performs: banner, CPU, memory, process widget, then the
conditional GPU list.  `toggle` is the value of `frame_toggle` at entry; the
closure also flips it, which the loop model threads. -/
def drawOps (su : StartupState) (toggle : Bool) (s : SysSample) :
    List RenderOp :=
  [bannerOp su toggle, cpuOp s, memOp s, processOp su s] ++ gpuOps su

/-- What a region of the screen shows after a draw: the region is fully
redrawn by each widget rendered into it, so the last render into the region
wins. -/
def finalRegion (ops : List RenderOp) (r : Nat) : Option RenderOp :=
  (ops.filter (fun op => op.region == r)).getLast?

/-- Outcome of one tick's bounded wait (lines 169-175):
`crossterm::event::poll(update_interval)` either errors, times out, or
reports an event after `elapsed` time units (at most the interval), which
`read()` then returns (a key, something else) or fails to return. -/
inductive WaitResult where
  | pollFail : WaitResult
  | readFail (elapsed : Nat) : WaitResult
  | keyEvent (elapsed : Nat) (c : Char) : WaitResult
  | otherEvent (elapsed : Nat) : WaitResult
  | timeout : WaitResult
deriving Repr, DecidableEq

/-- What the outside world supplies to one iteration of the loop: the host
sample that `refresh_all` produces, whether the `terminal.draw` call's I/O
succeeds, and the wait outcome. -/
structure TickInput where
  sample : SysSample
  drawOk : Bool
  wait : WaitResult
deriving Repr, DecidableEq

/-- How `run` returned: `quit` is the `break` on the quit key followed by
`Ok(())`; `fatalErr` is an `Err` propagated by a `?`. -/
inductive RunExit where
  | quit : RunExit
  | fatalErr : RunExit
deriving Repr, DecidableEq

/-- Observable outcome of running the loop on a finite list of tick inputs:
how it exited (`none` when the inputs ran out with the loop still going), how
many iterations began, how many times the teardown code at lines 178-179
(`disable_raw_mode`, `LeaveAlternateScreen`, `cursor::Show`) was reached, the
widget renders of each completed draw, and each completed wait's elapsed
time. -/
structure RunResult where
  exit : Option RunExit
  ticks : Nat
  teardowns : Nat
  outputs : List (List RenderOp)
  waits : List Nat
deriving Repr, DecidableEq

/-- `main.rs`, the loop of `run` (lines 111-182).  Each iteration refreshes,
draws (a draw error propagates with `?`, skipping everything after it), then
waits up to `tick_interval` for one input event: a poll/read error propagates
with `?`; a key event whose code is the char `q` hits `break`, which is the
only path that reaches the teardown of lines 178-179; any other key, any
non-key event and a timeout just fall through to the next iteration.  The
closure flips `frame_toggle` each draw, threaded here as `toggle`. -/
def runLoop (su : StartupState) : Bool → List TickInput → RunResult
  | _, [] => ⟨none, 0, 0, [], []⟩
  | toggle, t :: rest =>
    if t.drawOk then
      match t.wait with
      | .pollFail =>
          ⟨some .fatalErr, 1, 0, [drawOps su toggle t.sample], []⟩
      | .readFail e =>
          ⟨some .fatalErr, 1, 0, [drawOps su toggle t.sample], [e]⟩
      | .keyEvent e c =>
          if c = 'q' then
            ⟨some .quit, 1, 1, [drawOps su toggle t.sample], [e]⟩
          else
            let r := runLoop su (!toggle) rest
            ⟨r.exit, r.ticks + 1, r.teardowns,
             drawOps su toggle t.sample :: r.outputs, e :: r.waits⟩
      | .otherEvent e =>
          let r := runLoop su (!toggle) rest
          ⟨r.exit, r.ticks + 1, r.teardowns,
           drawOps su toggle t.sample :: r.outputs, e :: r.waits⟩
      | .timeout =>
          let r := runLoop su (!toggle) rest
          ⟨r.exit, r.ticks + 1, r.teardowns,
           drawOps su toggle t.sample :: r.outputs, su.tickInterval :: r.waits⟩
    else ⟨some .fatalErr, 1, 0, [], []⟩

/-- `run` as called from `main` (line 216): the loop starts with
`frame_toggle = false` on the startup state the pre-loop section built. -/
def runMonitor (m : MonitorState) (env : EnvInfo) (trace : List TickInput) :
    RunResult :=
  runLoop (mkStartup m env) false trace

/-- The process exit status `main` produces from `run`'s `io::Result`:
`Ok(())` after the quit `break` is status 0, a propagated error is
non-zero. -/
def exitCode : RunExit → Nat
  | .quit => 0
  | .fatalErr => 1

/-- A tick input on which the loop neither errors nor quits: draw succeeded
and the wait ended with a timeout, a non-key event, or a key other than
`q`. -/
def TickInput.continuing (t : TickInput) : Bool :=
  t.drawOk &&
    (match t.wait with
     | .keyEvent _ c => !(c == 'q')
     | .otherEvent _ => true
     | .timeout => true
     | _ => false)

/-- The elapsed wait time of a tick that completed its wait: the arrival
time of the event that ended it, or the whole interval on a timeout. -/
def waitElapsed (su : StartupState) (t : TickInput) : Nat :=
  match t.wait with
  | .keyEvent e _ => e
  | .otherEvent e => e
  | .readFail e => e
  | .timeout => su.tickInterval
  | .pollFail => 0

/-- The per-device block printed by the transcript variant
(`llmtrain_monitor.rs`, `display_gpu_info` lines 83-98): header, then one
line per metric whose query succeeded — a failed metric query only skips its
own line. -/
def displayGpuDeviceLines (d : GpuDevice) (i : Nat) : List String :=
  ("GPU " ++ toString i ++ ":") ::
    ((match d.utilization with
      | some u => ["  Usage: " ++ toString u ++ "%"]
      | none => []) ++
     (match d.memory with
      | some m =>
          ["  Memory: " ++ toString (m.1 / 1024 / 1024) ++ " / " ++
             toString (m.2 / 1024 / 1024) ++ " MB (Used/Total)"]
      | none => []) ++
     (match d.temperature with
      | some t => ["  Temperature: " ++ toString t ++ "°C"]
      | none => []) ++
     (match d.tensorCore with
      | some u => ["  Tensor Core Usage: " ++ toString u]
      | none => []))

/-- The `for i in 0..device_count` body of `display_gpu_info` (lines 81-99)
over an explicit index list: `device_by_index(i).ok()?` aborts the whole
function on a failed device handle (`false`, keeping the lines already
printed), otherwise the device block is printed and the loop continues. -/
def displayGpuLoop (n : NvmlHandle) : List Nat → List String × Bool
  | [] => ([], true)
  | i :: rest =>
    match n.deviceByIndex i with
    | none => ([], false)
    | some d =>
        let r := displayGpuLoop n rest
        (displayGpuDeviceLines d i ++ r.1, r.2)

/-- `llmtrain_monitor.rs`, `display_gpu_info` (lines 77-101): `None` (here
`false`) when the handle is absent, `device_count()` fails, or a device
handle fails mid-loop; the printed lines are returned alongside. -/
def display_gpu_info (nvml : Option NvmlHandle) : List String × Bool :=
  match nvml with
  | none => ([], false)
  | some n =>
    match n.deviceCount with
    | none => ([], false)
    | some c => displayGpuLoop n (List.range c)

/-- The GPU section of the transcript (lines 57-60): whatever
`display_gpu_info` printed, followed by the "not available" note exactly when
it returned `None`. -/
def gpuSection (nvml : Option NvmlHandle) : List String :=
  (display_gpu_info nvml).1 ++
    (if (display_gpu_info nvml).2 then [] else ["GPU information not available"])

/-- The process section of the transcript (lines 68-73). -/
def processSectionT (s : SysSample) (processName : String) : List String :=
  match get_process_info s.processes processName with
  | some cm =>
      ["Process CPU Usage: " ++ toString cm.1 ++ "%",
       "Process Memory Usage: " ++ toString (cm.2 / 1024 / 1024) ++ " MB"]
  | none => [notFoundLine processName]

/-- `llmtrain_monitor.rs`, `display` (lines 49-74): title, separator, CPU
line, GPU section, memory line, process section, in print order. -/
def display (nvml : Option NvmlHandle) (s : SysSample) (processName : String) :
    List String :=
  ["LLM Training Monitor", "-------------------", cpuLineStr s] ++
    gpuSection nvml ++ [memLineStr s] ++ processSectionT s processName

/-- Modelled from the spec: the Log Tail Extractor (spec §4.2) has no
implementation in the sources — `main.rs` stores `log_file_path` and
`metric_regex` but never reads the log file (its CLI help marks both
arguments "under development"), so the missing extraction step is modelled
from the spec's words.  `firstCapture` stands for the external regex engine
applying the compiled pattern to one line and returning the first capture
group's text on a match.  This helper is the spec's scan "from the end of the
file toward the beginning", already given the reversed line list: collect
each match's capture, stop after `cap` matches or at the end of the list,
skipping non-matching lines silently. -/
def extractGo (firstCapture : String → Option String) :
    List String → Nat → List String
  | _, 0 => []
  | [], _ + 1 => []
  | l :: rest, n + 1 =>
    match firstCapture l with
    | some s => s :: extractGo firstCapture rest n
    | none => extractGo firstCapture rest (n + 1)

/-- Modelled from the spec: the Log Tail Extractor itself (spec §4.2) —
"open file read-only; read all lines; scan from the end of the file toward
the beginning; for each line, attempt to match the pattern; on a match, take
the first capture group's text as the extracted metric string; stop after
collecting 10 matches or exhausting the file", results most-recently-occurring
first.  File I/O is abstracted to the file's line list. -/
def extractLogMetrics (firstCapture : String → Option String)
    (lines : List String) (cap : Nat) : List String :=
  extractGo firstCapture lines.reverse cap

/-- The example pattern of the claim — "the digit after `a=`" — as the regex
engine's first-capture function for `a=([0-9])`: leftmost occurrence of `a=`
followed by a digit captures that digit. -/
def digitAfterAEq : List Char → Option Char
  | 'a' :: '=' :: c :: rest =>
      if c.isDigit then some c else digitAfterAEq ('=' :: c :: rest)
  | _ :: rest => digitAfterAEq rest
  | [] => none

/-- The example pattern applied to a whole line. -/
def captureDigitAfterA (l : String) : Option String :=
  (digitAfterAEq l.data).map fun c => String.mk [c]

theorem extractGo_eq (f : String → Option String) :
    ∀ (l : List String) (n : Nat), extractGo f l n = (l.filterMap f).take n := by
  intro l
  induction l with
  | nil => intro n; cases n <;> rfl
  | cons a rest ih =>
    intro n
    cases n with
    | zero => rfl
    | succ m =>
      cases h : f a with
      | some s => simp [extractGo, h, List.filterMap_cons, ih]
      | none => simp [extractGo, h, List.filterMap_cons, ih]

theorem runLoop_cons_continuing (su : StartupState) (toggle : Bool)
    (t : TickInput) (rest : List TickInput) (h : t.continuing = true) :
    runLoop su toggle (t :: rest) =
      ⟨(runLoop su (!toggle) rest).exit, (runLoop su (!toggle) rest).ticks + 1,
       (runLoop su (!toggle) rest).teardowns,
       drawOps su toggle t.sample :: (runLoop su (!toggle) rest).outputs,
       waitElapsed su t :: (runLoop su (!toggle) rest).waits⟩ := by
  obtain ⟨s, dok, w⟩ := t
  simp only [TickInput.continuing, Bool.and_eq_true] at h
  obtain ⟨hd, hw⟩ := h
  cases w with
  | pollFail => simp at hw
  | readFail e => simp at hw
  | keyEvent e c =>
      have hc : ¬ c = 'q' := by simpa using hw
      simp [runLoop, hd, waitElapsed, hc]
  | otherEvent e => simp [runLoop, hd, waitElapsed]
  | timeout => simp [runLoop, hd, waitElapsed]

theorem runLoop_outputs_shape (su : StartupState) :
    ∀ (trace : List TickInput) (toggle : Bool) (out : List RenderOp),
      out ∈ (runLoop su toggle trace).outputs → ∃ b s, out = drawOps su b s := by
  intro trace
  induction trace with
  | nil => intro toggle out h; simp [runLoop] at h
  | cons t rest ih =>
    intro toggle out h
    obtain ⟨s, dok, w⟩ := t
    cases dok with
    | false => simp [runLoop] at h
    | true =>
      cases w with
      | pollFail =>
          simp [runLoop] at h
          exact ⟨toggle, s, h⟩
      | readFail e =>
          simp [runLoop] at h
          exact ⟨toggle, s, h⟩
      | keyEvent e c =>
          by_cases hc : c = 'q'
          · simp [runLoop, hc] at h
            exact ⟨toggle, s, h⟩
          · simp [runLoop, hc] at h
            rcases h with h | h
            · exact ⟨toggle, s, h⟩
            · exact ih (!toggle) out h
      | otherEvent e =>
          simp [runLoop] at h
          rcases h with h | h
          · exact ⟨toggle, s, h⟩
          · exact ih (!toggle) out h
      | timeout =>
          simp [runLoop] at h
          rcases h with h | h
          · exact ⟨toggle, s, h⟩
          · exact ih (!toggle) out h

theorem runLoop_control_agnostic (su su' : StartupState) :
    ∀ (trace : List TickInput) (toggle toggle' : Bool),
      (runLoop su toggle trace).exit = (runLoop su' toggle' trace).exit ∧
      (runLoop su toggle trace).ticks = (runLoop su' toggle' trace).ticks ∧
      (runLoop su toggle trace).teardowns = (runLoop su' toggle' trace).teardowns := by
  intro trace
  induction trace with
  | nil => intro _ _; exact ⟨rfl, rfl, rfl⟩
  | cons t rest ih =>
    intro toggle toggle'
    obtain ⟨s, dok, w⟩ := t
    cases dok with
    | false => simp [runLoop]
    | true =>
      cases w with
      | pollFail => simp [runLoop]
      | readFail e => simp [runLoop]
      | keyEvent e c =>
          by_cases hc : c = 'q'
          · simp [runLoop, hc]
          · obtain ⟨h1, h2, h3⟩ := ih (!toggle) (!toggle')
            simp [runLoop, hc, h1, h2, h3]
      | otherEvent e =>
          obtain ⟨h1, h2, h3⟩ := ih (!toggle) (!toggle')
          simp [runLoop, h1, h2, h3]
      | timeout =>
          obtain ⟨h1, h2, h3⟩ := ih (!toggle) (!toggle')
          simp [runLoop, h1, h2, h3]

theorem drawOps_filter_banner (su : StartupState) (toggle : Bool) (s : SysSample) :
    (drawOps su toggle s).filter (fun op => op.region == 0) = [bannerOp su toggle] := by
  cases h : su.gpuInfo <;>
    simp [drawOps, gpuOps, h, bannerOp, cpuOp, memOp, processOp]

theorem drawOps_filter_bottom (su : StartupState) (toggle : Bool) (s : SysSample) :
    (drawOps su toggle s).filter (fun op => op.region == 3) =
      processOp su s :: gpuOps su := by
  cases h : su.gpuInfo <;>
    simp [drawOps, gpuOps, h, bannerOp, cpuOp, memOp, processOp]

theorem drawOps_drop_four (su : StartupState) (toggle : Bool) (s : SysSample) :
    (drawOps su toggle s).drop 4 = gpuOps su := rfl

theorem getLast?_cons_of_some {α : Type} (a : α) {l : List α} {x : α}
    (h : l.getLast? = some x) : (a :: l).getLast? = some x := by
  cases l with
  | nil => simp at h
  | cons b l => rw [List.getLast?_cons_cons]; exact h

theorem finalRegion_bottom_gpu (su : StartupState) (toggle : Bool)
    (s : SysSample) (g : Nat × Nat × Nat × Nat) (hg : su.gpuInfo = some g) :
    finalRegion (drawOps su toggle s) 3 = some ⟨3, "GPU Info", gpuLines g⟩ := by
  rw [finalRegion, drawOps_filter_bottom]
  simp [gpuOps, hg]

theorem finalRegion_bottom_process (su : StartupState) (toggle : Bool)
    (s : SysSample) (hg : su.gpuInfo = none) :
    finalRegion (drawOps su toggle s) 3 = some (processOp su s) := by
  rw [finalRegion, drawOps_filter_bottom]
  simp [gpuOps, hg]

theorem find?_first_match (nm : String) (p : ProcEntry) (post : List ProcEntry)
    (hp : p.name = nm) :
    ∀ pre : List ProcEntry, (∀ q ∈ pre, q.name ≠ nm) →
      List.find? (fun r => r.name == nm) (pre ++ p :: post) = some p := by
  intro pre
  induction pre with
  | nil =>
      intro _
      simp only [List.nil_append]
      rw [List.find?_cons_of_pos]
      simp [hp]
  | cons q pre ih =>
      intro hpre
      have hq : ¬ q.name = nm := hpre q (List.mem_cons_self q pre)
      rw [List.cons_append, List.find?_cons_of_neg]
      · exact ih fun r hr => hpre r (List.mem_cons_of_mem q hr)
      · simp [hq]

theorem get_process_info_first (nm : String) (p : ProcEntry)
    (post pre : List ProcEntry) (hp : p.name = nm)
    (hpre : ∀ q ∈ pre, q.name ≠ nm) :
    get_process_info (pre ++ p :: post) nm = some (p.cpuUsage, p.memory) := by
  rw [get_process_info, find?_first_match nm p post hp pre hpre]
  rfl

theorem get_process_info_none (procs : List ProcEntry) (nm : String)
    (h : ∀ q ∈ procs, q.name ≠ nm) : get_process_info procs nm = none := by
  have hfind : procs.find? (fun p => p.name == nm) = none := by
    rw [List.find?_eq_none]
    intro x hx
    simpa using h x hx
  simp [get_process_info, hfind]

theorem displayGpuLoop_all_ok (n : NvmlHandle) :
    ∀ idxs : List Nat, (∀ i ∈ idxs, (n.deviceByIndex i).isSome = true) →
      (displayGpuLoop n idxs).2 = true ∧
      ∀ i ∈ idxs, ("GPU " ++ toString i ++ ":") ∈ (displayGpuLoop n idxs).1 := by
  intro idxs
  induction idxs with
  | nil => intro _; exact ⟨rfl, by simp⟩
  | cons j rest ih =>
      intro h
      have hj := h j (List.mem_cons_self j rest)
      obtain ⟨d, hd⟩ := Option.isSome_iff_exists.mp hj
      obtain ⟨ih1, ih2⟩ := ih fun i hi => h i (List.mem_cons_of_mem j hi)
      constructor
      · simp [displayGpuLoop, hd, ih1]
      · intro i hi
        rcases List.mem_cons.mp hi with h1 | h2
        · subst h1
          simp only [displayGpuLoop, hd]
          exact List.mem_append_left _ (by simp [displayGpuDeviceLines])
        · simp only [displayGpuLoop, hd]
          exact List.mem_append_right _ (ih2 i h2)

theorem displayGpuLoop_fail (n : NvmlHandle) :
    ∀ idxs : List Nat, (∃ i ∈ idxs, n.deviceByIndex i = none) →
      (displayGpuLoop n idxs).2 = false := by
  intro idxs
  induction idxs with
  | nil => rintro ⟨i, hi, _⟩; simp at hi
  | cons j rest ih =>
      rintro ⟨i, hi, hnone⟩
      rcases List.mem_cons.mp hi with h1 | h2
      · subst h1
        simp [displayGpuLoop, hnone]
      · cases hd : n.deviceByIndex j with
        | none => simp [displayGpuLoop, hd]
        | some d =>
            simp only [displayGpuLoop, hd]
            exact ih ⟨i, h2, hnone⟩

theorem runLoop_quit_fields (su : StartupState) (s : SysSample) (e : Nat)
    (rest : List TickInput) :
    ∀ (pre : List TickInput) (toggle : Bool), (∀ t ∈ pre, t.continuing = true) →
      (runLoop su toggle (pre ++ ⟨s, true, WaitResult.keyEvent e 'q'⟩ :: rest)).exit
          = some RunExit.quit ∧
      (runLoop su toggle (pre ++ ⟨s, true, WaitResult.keyEvent e 'q'⟩ :: rest)).ticks
          = pre.length + 1 ∧
      (runLoop su toggle (pre ++ ⟨s, true, WaitResult.keyEvent e 'q'⟩ :: rest)).teardowns
          = 1 ∧
      (runLoop su toggle (pre ++ ⟨s, true, WaitResult.keyEvent e 'q'⟩ :: rest)).waits.getLast?
          = some e := by
  intro pre
  induction pre with
  | nil => intro toggle _; exact ⟨rfl, rfl, rfl, rfl⟩
  | cons t pre ih =>
      intro toggle hpre
      have ht := hpre t (List.mem_cons_self t pre)
      have hrest : ∀ u ∈ pre, u.continuing = true :=
        fun u hu => hpre u (List.mem_cons_of_mem t hu)
      obtain ⟨h1, h2, h3, h4⟩ := ih (!toggle) hrest
      rw [List.cons_append, runLoop_cons_continuing su toggle t _ ht]
      exact ⟨h1, by simp [h2], h3, getLast?_cons_of_some _ h4⟩

/-- A concrete host sample used by witnesses: 37% cpu, 2 MiB of 8 MiB memory
used, one process named python. -/
def sampleEx : SysSample := ⟨37, 2097152, 8388608, [⟨"python", 12, 1048576⟩]⟩

/-- A concrete startup state with no GPU, used by witnesses. -/
def suEx : StartupState := ⟨"ana", "trainbox", "Linux 6.1", none, "python", 250⟩

/-- Claim C1 (code bug): the teardown sequence of lines 178-179
(`disable_raw_mode`, `LeaveAlternateScreen`, `cursor::Show`) is reached
exactly once when the loop ends via the quit key, but zero times when it ends
via an I/O error raised mid-tick — `run` propagates draw, poll and read
errors with `?`, returning before the restore code, so the restoration does
not execute on the error exit paths. -/
theorem c1_teardown_skipped_on_error_exit :
    (runLoop suEx false [⟨sampleEx, false, WaitResult.timeout⟩]).exit
        = some RunExit.fatalErr ∧
    (runLoop suEx false [⟨sampleEx, false, WaitResult.timeout⟩]).teardowns = 0 ∧
    (runLoop suEx false [⟨sampleEx, true, WaitResult.pollFail⟩]).exit
        = some RunExit.fatalErr ∧
    (runLoop suEx false [⟨sampleEx, true, WaitResult.pollFail⟩]).teardowns = 0 ∧
    (runLoop suEx false [⟨sampleEx, true, WaitResult.readFail 3⟩]).teardowns = 0 ∧
    (runLoop suEx false [⟨sampleEx, true, WaitResult.keyEvent 3 'q'⟩]).exit
        = some RunExit.quit ∧
    (runLoop suEx false [⟨sampleEx, true, WaitResult.keyEvent 3 'q'⟩]).teardowns = 1 :=
  ⟨rfl, rfl, rfl, rfl, rfl, rfl, rfl⟩

/-- Claim C2 (confirmed, spec-modelled): log extraction scans the lines from
the end of the file toward the beginning, keeps the first capture group's
text of each matching line, stops after the cap or at end of file, and
returns captures most-recently-occurring first — equivalently, the reversed
line list filtered through the pattern's first-capture function and truncated
at the cap; on the file `["a=1", "b=2", "a=3"]` with the digit-after-`a=`
pattern and cap 10 the result is `["3", "1"]`. -/
theorem c2_log_tail_extractor :
    (∀ (f : String → Option String) (lines : List String) (cap : Nat),
      extractLogMetrics f lines cap = (lines.reverse.filterMap f).take cap) ∧
    extractLogMetrics captureDigitAfterA ["a=1", "b=2", "a=3"] 10 = ["3", "1"] := by
  refine ⟨fun f lines cap => extractGo_eq f lines.reverse cap, ?_⟩
  rfl

/-- Claim C3 (confirmed): when, after any number of continuing ticks, the
quit key `q` arrives during a tick's bounded wait, the loop exits with the
quit outcome during that very tick — no further tick begins, whatever inputs
would have followed — the wait that caught it lasted at most one
tick interval, and the propagated result maps to exit status 0; while a
timeout or any other event lets the loop continue into exactly one more
tick. -/
theorem c3_quit_key_stops_before_next_tick (su : StartupState) (toggle : Bool)
    (pre rest : List TickInput) (s : SysSample) (e : Nat)
    (hpre : ∀ t ∈ pre, t.continuing = true) (he : e ≤ su.tickInterval) :
    (runLoop su toggle (pre ++ ⟨s, true, WaitResult.keyEvent e 'q'⟩ :: rest)).exit
        = some RunExit.quit ∧
    (runLoop su toggle (pre ++ ⟨s, true, WaitResult.keyEvent e 'q'⟩ :: rest)).ticks
        = pre.length + 1 ∧
    (runLoop su toggle (pre ++ ⟨s, true, WaitResult.keyEvent e 'q'⟩ :: rest)).teardowns
        = 1 ∧
    (runLoop su toggle (pre ++ ⟨s, true, WaitResult.keyEvent e 'q'⟩ :: rest)).waits.getLast?
        = some e ∧
    e ≤ su.tickInterval ∧
    ((runLoop su toggle (pre ++ ⟨s, true, WaitResult.keyEvent e 'q'⟩ :: rest)).exit.map
        exitCode) = some 0 ∧
    (∀ (t : TickInput) (rest2 : List TickInput) (tg : Bool), t.continuing = true →
      (runLoop su tg (t :: rest2)).exit = (runLoop su (!tg) rest2).exit ∧
      (runLoop su tg (t :: rest2)).ticks = (runLoop su (!tg) rest2).ticks + 1) := by
  obtain ⟨h1, h2, h3, h4⟩ := runLoop_quit_fields su s e rest pre toggle hpre
  refine ⟨h1, h2, h3, h4, he, by rw [h1]; rfl, ?_⟩
  intro t rest2 tg ht
  rw [runLoop_cons_continuing su tg t rest2 ht]
  exact ⟨rfl, rfl⟩

/-- Witness for C3 at a concrete run: one timeout tick, then the quit key
arriving 2 time units into the 250-unit wait of the second tick; the loop
exits as quit having run exactly 2 ticks. -/
theorem c3_quit_key_stops_before_next_tick_witness :
    (runLoop suEx false ([⟨sampleEx, true, WaitResult.timeout⟩] ++
        ⟨sampleEx, true, WaitResult.keyEvent 2 'q'⟩ :: [])).exit
        = some RunExit.quit ∧
    (runLoop suEx false ([⟨sampleEx, true, WaitResult.timeout⟩] ++
        ⟨sampleEx, true, WaitResult.keyEvent 2 'q'⟩ :: [])).ticks = 2 :=
  ⟨(c3_quit_key_stops_before_next_tick suEx false [⟨sampleEx, true, WaitResult.timeout⟩]
      [] sampleEx 2 (by intro t ht; simp at ht; subst ht; rfl) (by decide)).1,
   (c3_quit_key_stops_before_next_tick suEx false [⟨sampleEx, true, WaitResult.timeout⟩]
      [] sampleEx 2 (by intro t ht; simp at ht; subst ht; rfl) (by decide)).2.1⟩

/-- Device 0 of the C4 counterexample handle: utilization and memory answer,
the temperature query fails. -/
def devTempFail : GpuDevice := ⟨some 55, some (1073741824, 4294967296), none, none⟩

/-- The C4 counterexample handle: an initialized subsystem reporting one
device. -/
def nvmlTempFail : NvmlHandle :=
  ⟨some 1, fun i => if i = 0 then some devTempFail else none⟩

/-- Claim C4 is false as stated: with an initialized subsystem whose device 0
answers the utilization and memory queries but fails the temperature query,
the dashboard's `get_gpu_info` returns no GPU info at all — the whole device
is dropped instead of only the temperature field being omitted. -/
theorem c4_counterexample_temp_failure_drops_device :
    devTempFail.utilization.isSome = true ∧
    devTempFail.memory.isSome = true ∧
    devTempFail.temperature = none ∧
    nvmlTempFail.deviceByIndex 0 = some devTempFail ∧
    get_gpu_info (some nvmlTempFail) = none :=
  ⟨rfl, rfl, rfl, rfl, rfl⟩

/-- Claim C4 amended: in the dashboard, GPU info is all-or-nothing — given a
device-0 handle it is present exactly when all three of the utilization,
memory and temperature queries succeed — it consults only device index 0
(two handles agreeing on device 0 give identical results, whatever their
device counts or other devices), and it is computed once at startup: the GPU
ops of every tick's draw are the startup `gpuOps`.  In the transcript
variant, all device indices 0..count are enumerated when their handles
resolve (the function completes and prints every device's header), a failed
device handle inside the loop makes the function abort as "not available"
(keeping earlier devices' lines), and a failed metric query omits only that
metric's line for that device. -/
theorem c4_amended_gpu_querying :
    (∀ (n : NvmlHandle) (d : GpuDevice), n.deviceByIndex 0 = some d →
      ((get_gpu_info (some n)).isSome = true ↔
        (d.utilization.isSome = true ∧ d.memory.isSome = true ∧
         d.temperature.isSome = true))) ∧
    (∀ n n' : NvmlHandle, n.deviceByIndex 0 = n'.deviceByIndex 0 →
      get_gpu_info (some n) = get_gpu_info (some n')) ∧
    (∀ (su : StartupState) (toggle : Bool) (trace : List TickInput)
        (out : List RenderOp), out ∈ (runLoop su toggle trace).outputs →
      out.drop 4 = gpuOps su) ∧
    (∀ (n : NvmlHandle) (c : Nat), n.deviceCount = some c →
      (∀ i, i < c → (n.deviceByIndex i).isSome = true) →
      ((display_gpu_info (some n)).2 = true ∧
       ∀ i, i < c → ("GPU " ++ toString i ++ ":") ∈ (display_gpu_info (some n)).1)) ∧
    (∀ (n : NvmlHandle) (c i : Nat), n.deviceCount = some c → i < c →
      n.deviceByIndex i = none → (display_gpu_info (some n)).2 = false) ∧
    (∀ (u m1 m2 i : Nat),
      displayGpuDeviceLines ⟨some u, some (m1, m2), none, none⟩ i =
        ["GPU " ++ toString i ++ ":",
         "  Usage: " ++ toString u ++ "%",
         "  Memory: " ++ toString (m1 / 1024 / 1024) ++ " / " ++
           toString (m2 / 1024 / 1024) ++ " MB (Used/Total)"] ∧
      ∀ t : Nat, displayGpuDeviceLines ⟨some u, some (m1, m2), some t, none⟩ i =
        ["GPU " ++ toString i ++ ":",
         "  Usage: " ++ toString u ++ "%",
         "  Memory: " ++ toString (m1 / 1024 / 1024) ++ " / " ++
           toString (m2 / 1024 / 1024) ++ " MB (Used/Total)",
         "  Temperature: " ++ toString t ++ "°C"]) := by
  refine ⟨?_, ?_, ?_, ?_, ?_, ?_⟩
  · intro n d h
    obtain ⟨u, m, t, tc⟩ := d
    cases u <;> cases m <;> cases t <;> simp [get_gpu_info, h]
  · intro n n' h
    simp [get_gpu_info, h]
  · intro su toggle trace out hout
    obtain ⟨b, s, rfl⟩ := runLoop_outputs_shape su trace toggle out hout
    exact drawOps_drop_four su b s
  · intro n c hc hall
    have h := displayGpuLoop_all_ok n (List.range c)
      (fun i hi => hall i (List.mem_range.mp hi))
    refine ⟨?_, ?_⟩
    · simpa [display_gpu_info, hc] using h.1
    · intro i hi
      have := h.2 i (List.mem_range.mpr hi)
      simpa [display_gpu_info, hc] using this
  · intro n c i hc hi hnone
    have h := displayGpuLoop_fail n (List.range c) ⟨i, List.mem_range.mpr hi, hnone⟩
    simpa [display_gpu_info, hc] using h
  · intro u m1 m2 i
    exact ⟨rfl, fun t => rfl⟩

/-- A fully answering device and handle, used by the C4 witness. -/
def devFull : GpuDevice := ⟨some 10, some (1048576, 4194304), some 30, none⟩

/-- Handle whose every device query resolves to `devFull`. -/
def nvmlFull : NvmlHandle := ⟨some 1, fun _ => some devFull⟩

/-- Witness for the amended C4: on a device answering all three queries the
dashboard GPU info is present. -/
theorem c4_amended_gpu_querying_witness :
    (get_gpu_info (some nvmlFull)).isSome = true :=
  (c4_amended_gpu_querying.1 nvmlFull devFull rfl).mpr ⟨rfl, rfl, rfl⟩

/-- Claim C5 (confirmed): the process lookup keeps only exact name matches
and takes the first one in encounter order; with no match the lookup is
`none` — an absent value, not an error — and both renderers emit a
"not found" line spelling out the configured process name: the dashboard
draws it as the bottom-region paragraph and the transcript prints it. -/
theorem c5_process_lookup_and_not_found :
    (∀ (nm : String) (p : ProcEntry) (pre post : List ProcEntry),
      p.name = nm → (∀ q ∈ pre, q.name ≠ nm) →
      get_process_info (pre ++ p :: post) nm = some (p.cpuUsage, p.memory)) ∧
    (∀ (procs : List ProcEntry) (nm : String), (∀ q ∈ procs, q.name ≠ nm) →
      get_process_info procs nm = none) ∧
    (∀ (su : StartupState) (toggle : Bool) (s : SysSample),
      get_process_info s.processes su.processName = none →
      processOp su s = ⟨3, "Process Info", [notFoundLine su.processName]⟩ ∧
      processOp su s ∈ drawOps su toggle s) ∧
    (∀ (nvml : Option NvmlHandle) (s : SysSample) (nm : String),
      get_process_info s.processes nm = none →
      notFoundLine nm ∈ display nvml s nm) ∧
    (∀ nm : String, notFoundLine nm = "Process \x27" ++ nm ++ "\x27 not found") := by
  refine ⟨?_, ?_, ?_, ?_, fun nm => rfl⟩
  · intro nm p pre post hp hpre
    exact get_process_info_first nm p post pre hp hpre
  · intro procs nm h
    exact get_process_info_none procs nm h
  · intro su toggle s h
    refine ⟨?_, ?_⟩
    · simp [processOp, processTitle, processLines, h]
    · simp [drawOps]
  · intro nvml s nm h
    simp [display, processSectionT, h]

/-- Witness for C5: among three processes the lookup returns the first one
named python, and with no process named sleep the transcript contains the
"not found" line for sleep. -/
theorem c5_process_lookup_and_not_found_witness :
    get_process_info
        [⟨"bash", 1, 2⟩, ⟨"python", 12, 1048576⟩, ⟨"python", 99, 7⟩] "python"
        = some (12, 1048576) ∧
    notFoundLine "sleep" ∈ display none sampleEx "sleep" :=
  ⟨c5_process_lookup_and_not_found.1 "python" ⟨"python", 12, 1048576⟩
      [⟨"bash", 1, 2⟩] [⟨"python", 99, 7⟩] rfl (by decide),
   c5_process_lookup_and_not_found.2.2.2.1 none sampleEx "sleep" (by decide)⟩

/-- Claim C6 (confirmed): a failed `Nvml::init()` is recorded as an absent
subsystem (`none`), the startup GPU query then yields nothing, and every tick
still renders the banner (whose summary reads "No GPU detected"), the CPU
panel, the memory panel and the process section — with no GPU widget, the
bottom region keeps showing the process section; the loop's control flow
(exit and tick count) is the same whatever the startup state, so GPU absence
never aborts a run; and the transcript likewise prints its CPU line, a
"GPU information not available" note, its memory line, and a non-empty
process section. -/
theorem c6_no_gpu_graceful_degradation :
    get_gpu_info none = none ∧
    (∀ (pn : String) (iv : Nat) (lp mr : Option String) (env : EnvInfo)
        (toggle : Bool) (s : SysSample),
      drawOps (mkStartup ⟨none, pn, iv, lp, mr⟩ env) toggle s =
        [bannerOp (mkStartup ⟨none, pn, iv, lp, mr⟩ env) toggle, cpuOp s, memOp s,
         processOp (mkStartup ⟨none, pn, iv, lp, mr⟩ env) s] ∧
      gpu_summary (mkStartup ⟨none, pn, iv, lp, mr⟩ env).gpuInfo
          = "No GPU detected" ∧
      finalRegion (drawOps (mkStartup ⟨none, pn, iv, lp, mr⟩ env) toggle s) 3 =
        some (processOp (mkStartup ⟨none, pn, iv, lp, mr⟩ env) s)) ∧
    (∀ (su su' : StartupState) (toggle : Bool) (trace : List TickInput),
      (runLoop su toggle trace).exit = (runLoop su' toggle trace).exit ∧
      (runLoop su toggle trace).ticks = (runLoop su' toggle trace).ticks) ∧
    (∀ (s : SysSample) (nm : String),
      display none s nm =
        ["LLM Training Monitor", "-------------------", cpuLineStr s] ++
          (["GPU information not available"] ++
            ([memLineStr s] ++ processSectionT s nm)) ∧
      processSectionT s nm ≠ []) := by
  refine ⟨rfl, ?_, ?_, ?_⟩
  · intro pn iv lp mr env toggle s
    exact ⟨rfl, rfl, rfl⟩
  · intro su su' toggle trace
    obtain ⟨h1, h2, _⟩ := runLoop_control_agnostic su su' trace toggle toggle
    exact ⟨h1, h2⟩
  · intro s nm
    refine ⟨rfl, ?_⟩
    cases h : get_process_info s.processes nm <;> simp [processSectionT, h]

/-- A syntactically valid metric pattern with zero capture groups. -/
def patNoCapture : PatternSpec := ⟨true, 0, "loss"⟩

/-- Claim C7 is false as stated: the syntactically valid pattern "loss" has
no capture group, yet startup accepts the configuration — `new` stores the
compiled pattern instead of rejecting it. -/
theorem c7_counterexample_no_capture_accepted :
    patNoCapture.captureGroups = 0 ∧
    (LLMTrainMonitor.new none "python" 1 (some "train.log")
        (some patNoCapture)).isSome = true :=
  ⟨rfl, rfl⟩

/-- Claim C7 amended: startup validation of the metric pattern checks exactly
what `Regex::new` checks, syntactic validity — a pattern the engine accepts
is stored whatever its capture-group count, one it rejects panics the
startup — and the monitor loop never consults the stored pattern (log
extraction is unimplemented), so a missing capture group is not detected at
tick time either: the whole run result is unchanged under any replacement of
the stored pattern. -/
theorem c7_amended_pattern_validation :
    (∀ (nv : Option NvmlHandle) (pn : String) (iv : Nat) (lp : Option String)
        (p : PatternSpec), p.compiles = true →
      LLMTrainMonitor.new nv pn iv lp (some p) =
        some ⟨nv, pn, iv, lp, some p.text⟩) ∧
    (∀ (nv : Option NvmlHandle) (pn : String) (iv : Nat) (lp : Option String)
        (p : PatternSpec), p.compiles = false →
      LLMTrainMonitor.new nv pn iv lp (some p) = none) ∧
    (∀ (m : MonitorState) (r : Option String) (env : EnvInfo)
        (trace : List TickInput),
      runMonitor { m with metricRegex := r } env trace = runMonitor m env trace) := by
  refine ⟨?_, ?_, ?_⟩
  · intro nv pn iv lp p hp
    simp [LLMTrainMonitor.new, regexNew, hp]
  · intro nv pn iv lp p hp
    simp [LLMTrainMonitor.new, regexNew, hp]
  · intro m r env trace
    rfl

/-- Witness for the amended C7: the capture-group-free pattern "loss" is
accepted and stored at startup. -/
theorem c7_amended_pattern_validation_witness :
    LLMTrainMonitor.new none "python" 1 none (some patNoCapture) =
      some ⟨none, "python", 1, none, some "loss"⟩ :=
  c7_amended_pattern_validation.1 none "python" 1 none patNoCapture rfl

/-- Claim C8 (confirmed): every tick's banner render is one of the two
startup frames — a fixed function of the startup-computed username,
hostname, OS label and GPU memory summary, never of the tick's sample — and
each frame embeds the one startup `gpu_summary` string, so the banner's GPU
memory summary and user/host/OS labels are identical on every tick of a
run. -/
theorem c8_banner_fixed_at_startup (su : StartupState) (toggle : Bool)
    (trace : List TickInput) :
    (∀ out ∈ (runLoop su toggle trace).outputs,
      ∃ b, out.filter (fun op => op.region == 0) = [bannerOp su b]) ∧
    (∀ b : Bool, ∃ face,
      (bannerOp su b).lines =
        [bannerTop face su ++ (gpu_summary su.gpuInfo ++ "\n        ")] ∧
      (face = "ʕ •ᴥ•ʔ" ∨ face = "ʕ -ᴥ-ʔ")) := by
  constructor
  · intro out hout
    obtain ⟨b, s, rfl⟩ := runLoop_outputs_shape su trace toggle out hout
    exact ⟨b, drawOps_filter_banner su b s⟩
  · intro b
    cases b with
    | false => exact ⟨"ʕ -ᴥ-ʔ", rfl, Or.inr rfl⟩
    | true => exact ⟨"ʕ •ᴥ•ʔ", rfl, Or.inl rfl⟩

/-- Witness for C8: the first tick's draw of a concrete run has the startup
banner as its single region-0 render. -/
theorem c8_banner_fixed_at_startup_witness :
    ∃ b, (drawOps suEx false sampleEx).filter (fun op => op.region == 0)
        = [bannerOp suEx b] :=
  (c8_banner_fixed_at_startup suEx false [⟨sampleEx, true, WaitResult.timeout⟩]).1
    (drawOps suEx false sampleEx) (by simp [runLoop])

/-- Claim C9 (confirmed): on a tick where the process lookup succeeds and the
startup GPU info is present, the draw renders exactly two widgets into the
bottom region — the process widget first, the GPU list second — so the
region's final content is the GPU list: the later render silently overwrites
the process panel, with no z-ordering or split. -/
theorem c9_gpu_overwrites_process_region (su : StartupState) (toggle : Bool)
    (s : SysSample) (cm : Nat × Nat) (g : Nat × Nat × Nat × Nat)
    (hp : get_process_info s.processes su.processName = some cm)
    (hg : su.gpuInfo = some g) :
    (drawOps su toggle s).filter (fun op => op.region == 3) =
      [processOp su s, ⟨3, "GPU Info", gpuLines g⟩] ∧
    finalRegion (drawOps su toggle s) 3 = some ⟨3, "GPU Info", gpuLines g⟩ ∧
    processOp su s =
      ⟨3, "Process: " ++ su.processName,
       ["CPU Usage: " ++ toString cm.1 ++ "%",
        "Memory Usage: " ++ toString (cm.2 / 1024 / 1024) ++ " MB"]⟩ := by
  refine ⟨?_, ?_, ?_⟩
  · rw [drawOps_filter_bottom]
    simp [gpuOps, hg]
  · exact finalRegion_bottom_gpu su toggle s g hg
  · obtain ⟨c1, c2⟩ := cm
    simp [processOp, processTitle, processLines, hp]

/-- A concrete startup state whose GPU query succeeded, used by the C9
witness. -/
def suExG : StartupState :=
  ⟨"ana", "trainbox", "Linux 6.1", some (10, 1048576, 4194304, 60), "python", 250⟩

/-- Witness for C9: with the python process found and a GPU present, the
bottom region's final content is the GPU list. -/
theorem c9_gpu_overwrites_process_region_witness :
    finalRegion (drawOps suExG false sampleEx) 3 =
      some ⟨3, "GPU Info", gpuLines (10, 1048576, 4194304, 60)⟩ :=
  (c9_gpu_overwrites_process_region suExG false sampleEx (12, 1048576)
    (10, 1048576, 4194304, 60) (by decide) rfl).2.1

/-- Claim C10 (confirmed): a key other than `q` arriving `e` time units into
a tick's bounded wait ends that wait at `e` and the loop goes straight into
the next tick — the wait is not resumed for the remaining time — so with
`e` below the tick interval the recorded gap is strictly shorter than the
configured interval. -/
theorem c10_nonquit_key_cuts_wait_short (su : StartupState) (toggle : Bool)
    (s : SysSample) (e : Nat) (c : Char) (rest : List TickInput)
    (hc : c ≠ 'q') (he : e < su.tickInterval) :
    (runLoop su toggle (⟨s, true, WaitResult.keyEvent e c⟩ :: rest)).waits =
      e :: (runLoop su (!toggle) rest).waits ∧
    (runLoop su toggle (⟨s, true, WaitResult.keyEvent e c⟩ :: rest)).ticks =
      (runLoop su (!toggle) rest).ticks + 1 ∧
    (runLoop su toggle (⟨s, true, WaitResult.keyEvent e c⟩ :: rest)).exit =
      (runLoop su (!toggle) rest).exit ∧
    e < su.tickInterval := by
  have ht : TickInput.continuing ⟨s, true, WaitResult.keyEvent e c⟩ = true := by
    simp [TickInput.continuing, hc]
  rw [runLoop_cons_continuing su toggle _ rest ht]
  exact ⟨rfl, rfl, rfl, he⟩

/-- Witness for C10: the key x arriving after 1 of 250 units ends the only
tick's wait at 1 unit. -/
theorem c10_nonquit_key_cuts_wait_short_witness :
    (runLoop suEx false [⟨sampleEx, true, WaitResult.keyEvent 1 'x'⟩]).waits
        = [1] ∧
    1 < suEx.tickInterval :=
  ⟨(c10_nonquit_key_cuts_wait_short suEx false sampleEx 1 'x' []
      (by decide) (by decide)).1,
   by decide⟩
